import Mathlib

/-!
Shallow embedding of the AeroRent UK financial calculator (src/app.py).
Monetary amounts and percentages are modelled by rationals; the Python
floats carry decimal literals and the formulas are closed-form rational
arithmetic, so every code-side quantity is represented exactly.
Guarded Python divisions (value if cond else 0) become explicit if-branches.
-/

namespace AeroRent

/-- BusinessConfig: the user-supplied inputs read by the calculator
(sidebar widgets in src/app.py, lines 176-230 and 290-309).
Additional costs keep only the amounts, since the notes never enter
the arithmetic (src/app.py line 330 sums the amount field). -/
structure Config where
  flip_qty : ℚ
  flip_cost : ℚ
  mini4_qty : ℚ
  mini4_cost : ℚ
  case_cost_per_unit : ℚ
  battery_cost : ℚ
  filter_cost : ℚ
  web_cost : ℚ
  legal_cost : ℚ
  platform_cost : ℚ
  domain_cost : ℚ
  insurance_cost : ℚ
  caa_cost : ℚ
  marketing_cost : ℚ
  repairs_cost : ℚ
  accountant_cost : ℚ
  shipping_cost : ℚ
  box_cost : ℚ
  processing_fee : ℚ
  flip_daily : ℚ
  flip_weekend : ℚ
  flip_weekly : ℚ
  mini4_daily : ℚ
  mini4_weekend : ℚ
  mini4_weekly : ℚ
  mix_daily : ℚ
  mix_weekend : ℚ
  mix_weekly : ℚ
  additional_costs : List ℚ

/-- Hardcoded SD card unit cost (src/app.py line 325). -/
def sd_card_cost_per_unit : ℚ := 3899 / 100

/-- Total drone count (src/app.py line 321). -/
def total_drones (c : Config) : ℚ := c.flip_qty + c.mini4_qty

/-- Hard cases, one per drone (src/app.py line 197). -/
def total_hard_cases_cost (c : Config) : ℚ := total_drones c * c.case_cost_per_unit

/-- Shipping cost per rental: postage plus box (src/app.py line 227). -/
def total_shipping_cost_per_rental (c : Config) : ℚ := c.shipping_cost + c.box_cost

/-- Rental-mix total used by the validation (src/app.py line 312). -/
def mix_total (c : Config) : ℚ := c.mix_daily + c.mix_weekend + c.mix_weekly

/-- Capital expenditure (src/app.py lines 322-327). -/
def capex (c : Config) : ℚ :=
  c.flip_qty * c.flip_cost + c.mini4_qty * c.mini4_cost + total_hard_cases_cost c
    + c.battery_cost + c.filter_cost + c.web_cost + c.legal_cost
    + total_drones c * sd_card_cost_per_unit

/-- Sum of the user-entered additional costs (src/app.py line 330). -/
def additional_costs_total (c : Config) : ℚ := c.additional_costs.sum

/-- Annual operational expenditure (src/app.py line 333).  Note: the
monthly accountant figure is added once, without annualisation. -/
def opex (c : Config) : ℚ :=
  c.platform_cost + c.domain_cost + c.insurance_cost + c.caa_cost
    + c.marketing_cost + c.repairs_cost + c.accountant_cost

/-- Total first-year cost (src/app.py line 334). -/
def total_first_year_costs (c : Config) : ℚ :=
  capex c + opex c + additional_costs_total c

/-- Average revenue per day for the Flip model (src/app.py line 341). -/
def flip_avg_rev (c : Config) : ℚ :=
  c.flip_daily * (c.mix_daily / 100) + c.flip_weekend * (c.mix_weekend / 100)
    + c.flip_weekly * (c.mix_weekly / 100)

/-- Average revenue per day for the Mini 4 Pro model (src/app.py line 342). -/
def mini4_avg_rev (c : Config) : ℚ :=
  c.mini4_daily * (c.mix_daily / 100) + c.mini4_weekend * (c.mix_weekend / 100)
    + c.mini4_weekly * (c.mix_weekly / 100)

/-- Share of the fleet that is Flips, 0 when there are no drones
(src/app.py line 344). -/
def flip_share (c : Config) : ℚ :=
  if total_drones c > 0 then c.flip_qty / total_drones c else 0

/-- Share of the fleet that is Mini 4 Pros, 0 when there are no drones
(src/app.py line 345). -/
def mini4_share (c : Config) : ℚ :=
  if total_drones c > 0 then c.mini4_qty / total_drones c else 0

/-- Fleet-weighted average revenue per rental day (src/app.py line 347). -/
def weighted_avg_revenue (c : Config) : ℚ :=
  flip_avg_rev c * flip_share c + mini4_avg_rev c * mini4_share c

/-- Payment-processing cost per rental day (src/app.py line 349). -/
def processing_cost (c : Config) : ℚ :=
  weighted_avg_revenue c * (c.processing_fee / 100)

/-- Variable cost per rental day (src/app.py line 350). -/
def variable_cost_per_rental (c : Config) : ℚ :=
  total_shipping_cost_per_rental c + processing_cost c

/-- Contribution margin per rental day (src/app.py line 351). -/
def contribution_margin (c : Config) : ℚ :=
  weighted_avg_revenue c - variable_cost_per_rental c

/-- Break-even days, 0 when the margin is not positive (src/app.py line 354). -/
def break_even_days (c : Config) : ℚ :=
  if contribution_margin c > 0 then total_first_year_costs c / contribution_margin c else 0

/-- Total available rental days per year (src/app.py line 355). -/
def total_available_days (c : Config) : ℚ := total_drones c * 365

/-- Break-even utilisation percentage, 0 when no days are available
(src/app.py line 356). -/
def break_even_utilisation (c : Config) : ℚ :=
  if total_available_days c > 0 then break_even_days c / total_available_days c * 100 else 0

/-- FinancialResult: the record returned by calculate_financials
(src/app.py lines 358-369). -/
structure FinancialResult where
  total_first_year_costs : ℚ
  weighted_avg_revenue : ℚ
  contribution_margin : ℚ
  break_even_days : ℚ
  break_even_utilisation : ℚ
  total_drones : ℚ
  total_available_days : ℚ
  variable_cost_per_rental : ℚ
  opex : ℚ
  capex : ℚ

/-- Evaluation core (src/app.py lines 319-369, function calculate_financials). -/
def calculate_financials (c : Config) : FinancialResult :=
  { total_first_year_costs := total_first_year_costs c
    weighted_avg_revenue := weighted_avg_revenue c
    contribution_margin := contribution_margin c
    break_even_days := break_even_days c
    break_even_utilisation := break_even_utilisation c
    total_drones := total_drones c
    total_available_days := total_available_days c
    variable_cost_per_rental := variable_cost_per_rental c
    opex := opex c
    capex := capex c }

/-- Top-level evaluation flow: the script reports a validation error when
the rental mix does not sum to 100 (src/app.py lines 311-316) and only
computes the financials under the mix_total == 100 guard
(src/app.py lines 995-996); none models the refused evaluation. -/
def evaluate (c : Config) : Option FinancialResult :=
  if mix_total c = 100 then some (calculate_financials c) else none

/-- Annual projection at one utilisation percentage
(src/app.py lines 1251-1256, function calculate_projection). -/
structure Projection where
  revenue : ℚ
  profit : ℚ

/-- Projection of annual revenue and profit at a utilisation percentage,
reading the FinancialResult the way the closure reads the results dict
(src/app.py lines 1251-1256). -/
def calculate_projection (results : FinancialResult) (utilisation : ℚ) : Projection :=
  let rental_days := results.total_available_days * (utilisation / 100)
  let total_revenue := rental_days * results.weighted_avg_revenue
  let total_variable_costs := rental_days * results.variable_cost_per_rental
  { revenue := total_revenue
    profit := total_revenue - results.opex - total_variable_costs - results.capex }

/-- Monthly projection record (src/app.py lines 1306-1316). -/
structure MonthlyProjection where
  monthly_revenue : ℚ
  monthly_profit : ℚ
  monthly_rental_days : ℚ
  monthly_rentals : ℚ
  monthly_variable_costs : ℚ
  monthly_operational_costs : ℚ
  annual_revenue : ℚ
  annual_profit : ℚ
  avg_rental_duration : ℚ

/-- Monthly projection at a utilisation percentage (src/app.py lines
1287-1316, function calculate_monthly_projection).  The average rental
duration is the hardcoded constant of line 1303, written there as
0.2*1 + 0.6*2 + 0.2*7, independent of the configured mix. -/
def calculate_monthly_projection (results : FinancialResult) (utilisation : ℚ) :
    MonthlyProjection :=
  let rental_days := results.total_available_days * (utilisation / 100)
  let total_revenue := rental_days * results.weighted_avg_revenue
  let total_variable_costs := rental_days * results.variable_cost_per_rental
  let monthly_revenue := total_revenue / 12
  let monthly_variable_costs := total_variable_costs / 12
  let monthly_operational_costs := results.opex / 12
  let monthly_profit := monthly_revenue - monthly_variable_costs - monthly_operational_costs
  let monthly_rental_days := rental_days / 12
  let avg_rental_duration : ℚ := (2/10) * 1 + (6/10) * 2 + (2/10) * 7
  let monthly_rentals :=
    if avg_rental_duration > 0 then monthly_rental_days / avg_rental_duration else 0
  { monthly_revenue := monthly_revenue
    monthly_profit := monthly_profit
    monthly_rental_days := monthly_rental_days
    monthly_rentals := monthly_rentals
    monthly_variable_costs := monthly_variable_costs
    monthly_operational_costs := monthly_operational_costs
    annual_revenue := total_revenue
    annual_profit := monthly_profit * 12
    avg_rental_duration := avg_rental_duration }

/-- Row of the payback table built by calculate_business_metrics.
The Python float inf sentinel is modelled by none; a finite payback is
some value (src/app.py lines 1556-1561 and 1586-1591). -/
structure PaybackRow where
  payback_years : Option ℚ
  payback_months : Option ℚ
  annual_profit : ℚ

/-- Payback table entry at one utilisation (src/app.py lines 1550-1561):
payback_years = initial_investment / annual_profit if annual_profit > 0
else the inf sentinel, with initial_investment = total_first_year_costs
(line 1543). -/
def payback_row (results : FinancialResult) (util : ℚ) : PaybackRow :=
  let annual_profit := (calculate_projection results util).profit
  let initial_investment := results.total_first_year_costs
  let payback_years : Option ℚ :=
    if annual_profit > 0 then some (initial_investment / annual_profit) else none
  { payback_years := payback_years
    payback_months := Option.map (fun y => y * 12) payback_years
    annual_profit := annual_profit }

/-- One risk-scenario entry of calculate_business_metrics
(src/app.py lines 1645-1661); the same formulas are applied at the
fixed utilisations 10, 20 and 40. -/
structure RiskCase where
  annual_profit : ℚ
  roi : ℚ
  payback_years : Option ℚ

/-- Risk scenario at one utilisation (src/app.py lines 1641-1661). -/
def risk_case (results : FinancialResult) (util : ℚ) : RiskCase :=
  let proj := calculate_projection results util
  let initial_investment := results.total_first_year_costs
  { annual_profit := proj.profit
    roi := if initial_investment > 0 then proj.profit / initial_investment * 100 else 0
    payback_years :=
      if proj.profit > 0 then some (initial_investment / proj.profit) else none }

/-- Adjusted profit of a revenue sensitivity scenario with multiplier m
(src/app.py lines 1604-1627): the base case is the 20 percent
utilisation projection, and the code recovers the quantity it scales as
base revenue minus base profit minus opex. -/
def revenue_scenario_profit (results : FinancialResult) (m : ℚ) : ℚ :=
  let base := calculate_projection results 20
  let base_profit := base.profit
  let adjusted_revenue := base.revenue * m
  let adjusted_variable_costs := (base.revenue - base_profit - results.opex) * m
  adjusted_revenue - results.opex - adjusted_variable_costs - results.capex

/-- Adjusted profit of a cost sensitivity scenario with multiplier m
(src/app.py lines 1628-1629). -/
def cost_scenario_profit (results : FinancialResult) (m : ℚ) : ℚ :=
  let base_profit := (calculate_projection results 20).profit
  base_profit - results.opex * (m - 1)

/-- Base variable costs of the 20 percent utilisation base case, as the
projection computes them (src/app.py line 1254 at utilisation 20). -/
def base_variable_costs_20 (results : FinancialResult) : ℚ :=
  results.total_available_days * (20 / 100) * results.variable_cost_per_rental

/-- Spec formula for claim C5, stated for comparison with the code:
adjusted profit = m * baseRevenue - opex - m * baseVariableCosts - capex,
scaling only the variable costs by the revenue multiplier. -/
def revenue_scenario_profit_specFormula (results : FinancialResult) (m : ℚ) : ℚ :=
  (calculate_projection results 20).revenue * m - results.opex
    - base_variable_costs_20 results * m - results.capex

/-- Spec formula for claim C4, stated for comparison with the code:
average rental duration derived from the configured mix as
0.01 * (mix.daily * 1 + mix.weekend * 2 + mix.weekly * 7). -/
def avg_rental_duration_from_mix (c : Config) : ℚ :=
  (1/100) * (c.mix_daily * 1 + c.mix_weekend * 2 + c.mix_weekly * 7)

/-- Spec formula for claim C6, stated for comparison with the code:
annual opex with the monthly accountant fee annualised as 12 times the
monthly amount. -/
def opex_annualised_accountant (c : Config) : ℚ :=
  c.platform_cost + c.domain_cost + c.insurance_cost + c.caa_cost
    + c.marketing_cost + c.repairs_cost + 12 * c.accountant_cost

/-- Annual accountant figure used by the export cost breakdown
(src/app.py line 488: accountant_cost * 12). -/
def export_accountant_annual (c : Config) : ℚ := c.accountant_cost * 12

/-- Validity of a configuration: every numeric input widget enforces a
zero lower bound (min_value=0.0 throughout src/app.py lines 176-251),
and the rental mix must sum to 100 (src/app.py lines 311-316). -/
def Config.Valid (c : Config) : Prop :=
  0 ≤ c.flip_qty ∧ 0 ≤ c.flip_cost ∧ 0 ≤ c.mini4_qty ∧ 0 ≤ c.mini4_cost ∧
  0 ≤ c.case_cost_per_unit ∧ 0 ≤ c.battery_cost ∧ 0 ≤ c.filter_cost ∧
  0 ≤ c.web_cost ∧ 0 ≤ c.legal_cost ∧ 0 ≤ c.platform_cost ∧ 0 ≤ c.domain_cost ∧
  0 ≤ c.insurance_cost ∧ 0 ≤ c.caa_cost ∧ 0 ≤ c.marketing_cost ∧
  0 ≤ c.repairs_cost ∧ 0 ≤ c.accountant_cost ∧ 0 ≤ c.shipping_cost ∧
  0 ≤ c.box_cost ∧ 0 ≤ c.processing_fee ∧ 0 ≤ c.flip_daily ∧
  0 ≤ c.flip_weekend ∧ 0 ≤ c.flip_weekly ∧ 0 ≤ c.mini4_daily ∧
  0 ≤ c.mini4_weekend ∧ 0 ≤ c.mini4_weekly ∧ 0 ≤ c.mix_daily ∧
  0 ≤ c.mix_weekend ∧ 0 ≤ c.mix_weekly ∧
  (∀ a ∈ c.additional_costs, 0 ≤ a) ∧ mix_total c = 100

/-- Proposal 1 preset (src/app.py lines 19-53), with no additional costs. -/
def proposal1 : Config :=
  { flip_qty := 3
    flip_cost := 58795/100
    mini4_qty := 1
    mini4_cost := 899
    case_cost_per_unit := 45
    battery_cost := 0
    filter_cost := 0
    web_cost := 0
    legal_cost := 100
    platform_cost := 228
    domain_cost := 30
    insurance_cost := 750
    caa_cost := 1179/100
    marketing_cost := 6000
    repairs_cost := 2956/10
    accountant_cost := 50
    shipping_cost := 32
    box_cost := 151/100
    processing_fee := 15/10
    flip_daily := 49
    flip_weekend := 85
    flip_weekly := 165
    mini4_daily := 65
    mini4_weekend := 109
    mini4_weekly := 210
    mix_daily := 20
    mix_weekend := 60
    mix_weekly := 20
    additional_costs := [] }

/-- Proposal 1 with an invalid rental mix summing to 90 (the 40/40/10
example of the spec). -/
def config404010 : Config :=
  { proposal1 with mix_daily := 40, mix_weekend := 40, mix_weekly := 10 }

/-- Proposal 1 with a pure daily mix, 100/0/0. -/
def configMixAllDaily : Config :=
  { proposal1 with mix_daily := 100, mix_weekend := 0, mix_weekly := 0 }

/-- Proposal 1 with an empty fleet. -/
def configZeroFleet : Config :=
  { proposal1 with flip_qty := 0, mini4_qty := 0 }

theorem Config.Valid.shipping_nonneg {c : Config} (hv : c.Valid) :
    0 ≤ c.shipping_cost := by
  obtain ⟨-, -, -, -, -, -, -, -, -, -, -, -, -, -, -, -, h, -⟩ := hv
  exact h

theorem Config.Valid.box_nonneg {c : Config} (hv : c.Valid) : 0 ≤ c.box_cost := by
  obtain ⟨-, -, -, -, -, -, -, -, -, -, -, -, -, -, -, -, -, h, -⟩ := hv
  exact h

/-- With no drones the fleet shares vanish, so the weighted revenue is 0
and the contribution margin is minus the shipping cost; a positive margin
therefore forces a nonempty fleet when shipping inputs are non-negative. -/
theorem total_drones_pos_of_margin {c : Config} (hship : 0 ≤ c.shipping_cost)
    (hbox : 0 ≤ c.box_cost) (hm : 0 < contribution_margin c) :
    0 < total_drones c := by
  by_contra h
  push_neg at h
  have hs : flip_share c = 0 := by
    unfold flip_share
    rw [if_neg (not_lt.mpr h)]
  have hs4 : mini4_share c = 0 := by
    unfold mini4_share
    rw [if_neg (not_lt.mpr h)]
  have hw : weighted_avg_revenue c = 0 := by
    unfold weighted_avg_revenue
    rw [hs, hs4]
    ring
  have hle : contribution_margin c ≤ 0 := by
    unfold contribution_margin variable_cost_per_rental processing_cost
      total_shipping_cost_per_rental
    rw [hw]
    linarith
  linarith

/-- Profit of the annual projection in closed form. -/
theorem projection_profit_eq (c : Config) (u : ℚ) :
    (calculate_projection (calculate_financials c) u).profit
      = total_available_days c * (u / 100) * contribution_margin c - opex c - capex c := by
  simp only [calculate_projection, calculate_financials, contribution_margin]
  ring

/-- C1: a configuration whose rental-mix percentages do not sum to 100 is
refused (no FinancialResult is produced, only the validation error of
src/app.py line 314), and a configuration whose mix sums to exactly 100
is evaluated. -/
theorem C1_mix_validation (c : Config) :
    (mix_total c ≠ 100 → evaluate c = none) ∧
    (mix_total c = 100 → (evaluate c).isSome = true) := by
  constructor
  · intro h
    simp [evaluate, h]
  · intro h
    simp [evaluate, h]

theorem C1_mix_validation_witness :
    evaluate config404010 = none ∧ (evaluate proposal1).isSome = true :=
  ⟨(C1_mix_validation config404010).1 (by norm_num [mix_total, config404010, proposal1]),
   (C1_mix_validation proposal1).2 (by norm_num [mix_total, proposal1])⟩

/-- C2: on the Proposal 1 scenario (3 Flips, 1 Mini 4 Pro, mix 20/60/20,
Flip prices 49/85/165, Mini 4 prices 65/109/210) the engine returns a
weighted average revenue per day of exactly
(49*0.2 + 85*0.6 + 165*0.2) * 0.75 + (65*0.2 + 109*0.6 + 210*0.2) * 0.25,
which is 100.45 pounds. -/
theorem C2_weighted_avg_revenue_proposal1 :
    (calculate_financials proposal1).weighted_avg_revenue
        = (49 * (20/100) + 85 * (60/100) + 165 * (20/100)) * (3/4)
          + (65 * (20/100) + 109 * (60/100) + 210 * (20/100)) * (1/4) ∧
    (calculate_financials proposal1).weighted_avg_revenue = 10045/100 := by
  norm_num [calculate_financials, weighted_avg_revenue, flip_avg_rev, mini4_avg_rev,
    flip_share, mini4_share, total_drones, proposal1]

/-- C3 counterexample: on Proposal 1 the contribution margin is positive,
yet the profit projected at the break-even utilisation is 0, not minus
the capital expenditure of 3098.81 pounds; it misses minus capex by far
more than any rounding tolerance. -/
theorem C3_break_even_profit_counterexample :
    (calculate_financials proposal1).contribution_margin > 0 ∧
    (calculate_projection (calculate_financials proposal1)
        (calculate_financials proposal1).break_even_utilisation).profit = 0 ∧
    (calculate_financials proposal1).capex = 309881/100 ∧
    ¬ |(calculate_projection (calculate_financials proposal1)
          (calculate_financials proposal1).break_even_utilisation).profit
        + (calculate_financials proposal1).capex| ≤ 1 := by
  norm_num [calculate_financials, calculate_projection, contribution_margin,
    variable_cost_per_rental, processing_cost, total_shipping_cost_per_rental,
    weighted_avg_revenue, flip_avg_rev, mini4_avg_rev, flip_share, mini4_share,
    total_drones, break_even_utilisation, break_even_days, total_available_days,
    total_first_year_costs, capex, opex, additional_costs_total,
    total_hard_cases_cost, sd_card_cost_per_unit, proposal1, abs]

/-- C3 amended: for every valid configuration with positive contribution
margin, projecting at the computed break-even utilisation yields an
annual profit exactly equal to the additional-costs total (in particular
0, not minus capex, when there are no additional costs): at break-even
the revenue covers variable costs, opex and capex, and recovers the
additional costs which the projection profit does not subtract. -/
theorem C3_break_even_profit_eq_additional_costs (c : Config) (hv : c.Valid)
    (hm : 0 < contribution_margin c) :
    (calculate_projection (calculate_financials c)
        (calculate_financials c).break_even_utilisation).profit
      = additional_costs_total c := by
  have hd : 0 < total_drones c :=
    total_drones_pos_of_margin hv.shipping_nonneg hv.box_nonneg hm
  have htad : 0 < total_available_days c := by
    unfold total_available_days
    linarith
  have hbe : (calculate_financials c).break_even_utilisation
      = total_first_year_costs c / contribution_margin c / total_available_days c * 100 := by
    simp only [calculate_financials]
    unfold break_even_utilisation break_even_days
    rw [if_pos hm, if_pos htad]
  rw [hbe, projection_profit_eq]
  have htad' : total_available_days c ≠ 0 := ne_of_gt htad
  have hm' : contribution_margin c ≠ 0 := ne_of_gt hm
  field_simp
  unfold total_first_year_costs
  ring

theorem C3_break_even_profit_eq_additional_costs_witness :
    (calculate_projection (calculate_financials proposal1)
        (calculate_financials proposal1).break_even_utilisation).profit
      = additional_costs_total proposal1 :=
  C3_break_even_profit_eq_additional_costs proposal1
    (by
      refine ⟨?_, ?_, ?_, ?_, ?_, ?_, ?_, ?_, ?_, ?_, ?_, ?_, ?_, ?_, ?_, ?_,
        ?_, ?_, ?_, ?_, ?_, ?_, ?_, ?_, ?_, ?_, ?_, ?_, ?_, ?_⟩ <;>
        norm_num [proposal1, mix_total])
    (by
      norm_num [contribution_margin, variable_cost_per_rental, processing_cost,
        total_shipping_cost_per_rental, weighted_avg_revenue, flip_avg_rev,
        mini4_avg_rev, flip_share, mini4_share, total_drones, proposal1])

/-- C4: the claim says the average rental duration is derived from the
configured mix as 0.01 * (daily * 1 + weekend * 2 + weekly * 7); the code
hardcodes the default 20/60/20 value 2.8 days (src/app.py line 1303),
so with a pure daily mix the code still reports 2.8 days where the mix
formula gives 1 day. -/
theorem C4_avg_rental_duration_hardcoded :
    (calculate_monthly_projection (calculate_financials configMixAllDaily)
        20).avg_rental_duration = 14/5 ∧
    avg_rental_duration_from_mix configMixAllDaily = 1 := by
  norm_num [calculate_monthly_projection, avg_rental_duration_from_mix,
    configMixAllDaily, proposal1]

/-- C5: the claim says a revenue scenario with multiplier m reports
m * baseRevenue - opex - m * baseVariableCosts - capex; the code scales
base revenue minus base profit minus opex, which equals the variable
costs plus capex (src/app.py line 1626), so on Proposal 1 at m = 1.1 the
reported profit is below the claimed formula by exactly 1.1 * capex. -/
theorem C5_revenue_scenario_divergence :
    revenue_scenario_profit (calculate_financials proposal1) (11/10)
        = revenue_scenario_profit_specFormula (calculate_financials proposal1) (11/10)
          - (11/10) * (calculate_financials proposal1).capex ∧
    revenue_scenario_profit (calculate_financials proposal1) (11/10)
        ≠ revenue_scenario_profit_specFormula (calculate_financials proposal1) (11/10) := by
  norm_num [revenue_scenario_profit, revenue_scenario_profit_specFormula,
    base_variable_costs_20, calculate_projection, calculate_financials,
    variable_cost_per_rental, processing_cost, total_shipping_cost_per_rental,
    weighted_avg_revenue, flip_avg_rev, mini4_avg_rev, flip_share, mini4_share,
    total_drones, total_available_days, total_first_year_costs, capex, opex,
    additional_costs_total, total_hard_cases_cost, sd_card_cost_per_unit, proposal1]

/-- C6: the claim says calculate_financials annualises the accountant fee
as 12 times the monthly amount; on Proposal 1 (50 pounds monthly) the
aggregated opex is 7365.39 pounds, the annualised formula gives 7915.39
pounds, and the export cost breakdown itself lists the accountant line as
600 pounds annual (src/app.py line 488), so the engine adds the monthly
figure once. -/
theorem C6_opex_accountant_not_annualised :
    (calculate_financials proposal1).opex = 736539/100 ∧
    opex_annualised_accountant proposal1 = 791539/100 ∧
    export_accountant_annual proposal1 = 600 := by
  norm_num [calculate_financials, opex, opex_annualised_accountant,
    export_accountant_annual, proposal1]

/-- C7: with zero drones of every model the engine returns weighted
average revenue 0, total available days 0 and break-even utilisation 0;
the guarded branches of src/app.py lines 344-345 and 354-356 return the
zero sentinels instead of dividing by the zero denominators. -/
theorem C7_zero_fleet (c : Config) (hf : c.flip_qty = 0) (hm : c.mini4_qty = 0) :
    (calculate_financials c).weighted_avg_revenue = 0 ∧
    (calculate_financials c).total_available_days = 0 ∧
    (calculate_financials c).break_even_utilisation = 0 := by
  have hd : total_drones c = 0 := by
    unfold total_drones
    rw [hf, hm]
    ring
  have hs : flip_share c = 0 := by
    unfold flip_share
    rw [hd]
    norm_num
  have hs4 : mini4_share c = 0 := by
    unfold mini4_share
    rw [hd]
    norm_num
  have hw : weighted_avg_revenue c = 0 := by
    unfold weighted_avg_revenue
    rw [hs, hs4]
    ring
  have htad : total_available_days c = 0 := by
    unfold total_available_days
    rw [hd]
    ring
  have hbe : break_even_utilisation c = 0 := by
    unfold break_even_utilisation
    rw [htad]
    norm_num
  exact ⟨hw, htad, hbe⟩

theorem C7_zero_fleet_witness :
    (calculate_financials configZeroFleet).weighted_avg_revenue = 0 ∧
    (calculate_financials configZeroFleet).total_available_days = 0 ∧
    (calculate_financials configZeroFleet).break_even_utilisation = 0 :=
  C7_zero_fleet configZeroFleet rfl rfl

/-- C8: for every valid configuration with positive contribution margin
the projected annual profit is strictly increasing in the utilisation
percentage. -/
theorem C8_projection_profit_monotone (c : Config) (hv : c.Valid)
    (hm : 0 < contribution_margin c) (u1 u2 : ℚ) (h : u1 < u2) :
    (calculate_projection (calculate_financials c) u1).profit
      < (calculate_projection (calculate_financials c) u2).profit := by
  have hd : 0 < total_drones c :=
    total_drones_pos_of_margin hv.shipping_nonneg hv.box_nonneg hm
  have htad : 0 < total_available_days c := by
    unfold total_available_days
    linarith
  rw [projection_profit_eq, projection_profit_eq]
  have key : 0 < total_available_days c * ((u2 - u1) / 100) * contribution_margin c := by
    apply mul_pos (mul_pos htad (by linarith))
    exact hm
  nlinarith [key]

theorem C8_projection_profit_monotone_witness :
    (calculate_projection (calculate_financials proposal1) 10).profit
      < (calculate_projection (calculate_financials proposal1) 20).profit :=
  C8_projection_profit_monotone proposal1
    (by
      refine ⟨?_, ?_, ?_, ?_, ?_, ?_, ?_, ?_, ?_, ?_, ?_, ?_, ?_, ?_, ?_, ?_,
        ?_, ?_, ?_, ?_, ?_, ?_, ?_, ?_, ?_, ?_, ?_, ?_, ?_, ?_⟩ <;>
        norm_num [proposal1, mix_total])
    (by
      norm_num [contribution_margin, variable_cost_per_rental, processing_cost,
        total_shipping_cost_per_rental, weighted_avg_revenue, flip_avg_rev,
        mini4_avg_rev, flip_share, mini4_share, total_drones, proposal1])
    10 20 (by norm_num)

/-- C9: at any utilisation whose projected annual profit is not positive,
both the payback table and the risk scenarios report the infinite
sentinel (modelled by none), never a negative or zero payback; when the
profit is positive both report total_first_year_costs divided by that
profit. -/
theorem C9_payback_sentinel (c : Config) (u : ℚ) :
    ((calculate_projection (calculate_financials c) u).profit ≤ 0 →
      (payback_row (calculate_financials c) u).payback_years = none ∧
      (risk_case (calculate_financials c) u).payback_years = none) ∧
    (0 < (calculate_projection (calculate_financials c) u).profit →
      (payback_row (calculate_financials c) u).payback_years
        = some ((calculate_financials c).total_first_year_costs
            / (calculate_projection (calculate_financials c) u).profit) ∧
      (risk_case (calculate_financials c) u).payback_years
        = some ((calculate_financials c).total_first_year_costs
            / (calculate_projection (calculate_financials c) u).profit)) := by
  constructor
  · intro h
    constructor
    · simp only [payback_row]
      rw [if_neg (not_lt.mpr h)]
    · simp only [risk_case]
      rw [if_neg (not_lt.mpr h)]
  · intro h
    constructor
    · simp only [payback_row]
      rw [if_pos h]
    · simp only [risk_case]
      rw [if_pos h]

theorem C9_payback_sentinel_witness :
    ((payback_row (calculate_financials proposal1) 1).payback_years = none ∧
     (risk_case (calculate_financials proposal1) 1).payback_years = none) ∧
    ((payback_row (calculate_financials proposal1) 30).payback_years
        = some ((calculate_financials proposal1).total_first_year_costs
            / (calculate_projection (calculate_financials proposal1) 30).profit) ∧
     (risk_case (calculate_financials proposal1) 30).payback_years
        = some ((calculate_financials proposal1).total_first_year_costs
            / (calculate_projection (calculate_financials proposal1) 30).profit)) :=
  ⟨(C9_payback_sentinel proposal1 1).1
    (by
      norm_num [calculate_projection, calculate_financials,
        variable_cost_per_rental, processing_cost, total_shipping_cost_per_rental,
        weighted_avg_revenue, flip_avg_rev, mini4_avg_rev, flip_share, mini4_share,
        total_drones, total_available_days, capex, opex, additional_costs_total,
        total_hard_cases_cost, sd_card_cost_per_unit, proposal1]),
   (C9_payback_sentinel proposal1 30).2
    (by
      norm_num [calculate_projection, calculate_financials,
        variable_cost_per_rental, processing_cost, total_shipping_cost_per_rental,
        weighted_avg_revenue, flip_avg_rev, mini4_avg_rev, flip_share, mini4_share,
        total_drones, total_available_days, capex, opex, additional_costs_total,
        total_hard_cases_cost, sd_card_cost_per_unit, proposal1])⟩

/-- C10: for every configuration and utilisation, the capex-exclusive
annual profit of the monthly projection exceeds the capex-inclusive
annual projection profit by exactly the capital expenditure. -/
theorem C10_monthly_annual_profit_excludes_capex (c : Config) (u : ℚ) :
    (calculate_monthly_projection (calculate_financials c) u).annual_profit
      = (calculate_projection (calculate_financials c) u).profit
        + (calculate_financials c).capex := by
  simp only [calculate_monthly_projection, calculate_projection, calculate_financials]
  ring

end AeroRent
